import Mathlib

/-!
Shallow embedding of the resilience layer in src/lib/validation_enhanced.c:
connection pooling, response caching with TTL, retry/backoff, metrics
collection and configuration management.  Machine state (the static
globals of the C file) is passed explicitly; CURL handles are modelled as
natural-number identifiers; the transport is a function from the index of
the attempt to the outcome of that exchange.
-/

/-- The CURLcode values that appear in validation_enhanced.c. -/
inductive CURLcode where
  | ok
  | couldnt_connect
  | operation_timedout
  | bad_function_argument
  | out_of_memory
deriving DecidableEq

/-- Numeric value of a CURLcode, as the C cast (int)res produces. -/
def curlCodeNum : CURLcode → Int
  | .ok => 0
  | .couldnt_connect => 7
  | .out_of_memory => 27
  | .operation_timedout => 28
  | .bad_function_argument => 43

/-- Message string of curl_easy_strerror, modelled only as far as claims need. -/
def curl_easy_strerror : CURLcode → String
  | .ok => "No error"
  | .couldnt_connect => "Failed to connect to host"
  | .out_of_memory => "Out of memory"
  | .operation_timedout => "Timeout was reached"
  | .bad_function_argument => "A function was given a bad argument"

/-- Outcome of one curl_easy_perform: the transport-level result code, the
HTTP status that CURLINFO_RESPONSE_CODE would report afterwards, and the
body the server sent (which validation_enhanced.c never captures). -/
structure Exchange where
  res : CURLcode
  status : Nat
  body : String
deriving DecidableEq

/-- Result of validation_retry_with_backoff.  res is the local CURLcode
variable returned at the end: none models the case in which the loop body
never ran, so the variable is returned uninitialized.  lastStatus is the
response code of the most recent perform (none when no perform happened).
attempts counts calls to curl_easy_perform; sleeps lists the backoff
sleeps in seconds, in order. -/
structure RetryResult where
  res : Option CURLcode
  lastStatus : Option Nat
  attempts : Nat
  sleeps : List Nat
deriving DecidableEq

/-- The while loop of validation_retry_with_backoff.  fuel stands for
max_retries - retry_count, so the loop guard retry_count < max_retries is
the test fuel ≠ 0, and retry_count++ is the step to fuel - 1.  The inner
check retry_count < max_retries made after the increment is therefore the
test fuel - 1 ≠ 0 on the un-decremented fuel, written here as the guard
on the recursive call. -/
def retryLoop (transport : Nat → Exchange) :
    Nat → Nat → Nat → List Nat → Option CURLcode → Option Nat → RetryResult
  | 0, attempts, _backoffMs, sleeps, prevRes, prevStatus =>
      ⟨prevRes, prevStatus, attempts, sleeps⟩
  | fuel + 1, attempts, backoffMs, sleeps, _, _ =>
      let e := transport attempts
      if e.res = CURLcode.ok ∧ 200 ≤ e.status ∧ e.status < 300 then
        ⟨some e.res, some e.status, attempts + 1, sleeps⟩
      else if e.res = CURLcode.ok ∧ 500 ≤ e.status then
        if fuel ≠ 0 then
          retryLoop transport fuel (attempts + 1) (backoffMs * 2)
            (sleeps ++ [backoffMs / 1000]) (some e.res) (some e.status)
        else
          retryLoop transport fuel (attempts + 1) backoffMs sleeps
            (some e.res) (some e.status)
      else if e.res = CURLcode.couldnt_connect ∨ e.res = CURLcode.operation_timedout then
        if fuel ≠ 0 then
          retryLoop transport fuel (attempts + 1) (backoffMs * 2)
            (sleeps ++ [backoffMs / 1000]) (some e.res) (some e.status)
        else
          ⟨some e.res, some e.status, attempts + 1, sleeps⟩
      else
        ⟨some e.res, some e.status, attempts + 1, sleeps⟩

/-- validation_retry_with_backoff: retry_count starts at 0 and backoff_ms
at 1000, so the loop starts with fuel = max_retries. -/
def validation_retry_with_backoff (transport : Nat → Exchange) (max_retries : Nat) :
    RetryResult :=
  retryLoop transport max_retries 0 1000 [] none none

/-- The validation_config_t structure.  String-typed fields are Option
because the C fields are pointers that may be NULL; max_retries is a Nat
per the specification (integer ≥ 0). -/
structure validation_config_t where
  base_url : Option String
  timeout : Int
  max_retries : Nat
  enable_caching : Bool
  enable_metrics : Bool
  enable_connection_pooling : Bool
  client_cert_path : Option String
  client_key_path : Option String
deriving DecidableEq

/-- The initializer of the static global_config. -/
def default_global_config : validation_config_t :=
  { base_url := some "https://api-mock.payments.jpmorgan.com/tsapi/v2"
    timeout := 30
    max_retries := 3
    enable_caching := true
    enable_metrics := true
    enable_connection_pooling := true
    client_cert_path := none
    client_key_path := none }

/-- validation_set_config: scalar fields and toggles are always copied
from the argument; each of the three string fields is copied only when
the argument supplies it non-NULL, and otherwise the previous value is
kept (the C code frees and strdups only under "if (config->field)"). -/
def validation_set_config (global_config config : validation_config_t) :
    validation_config_t :=
  { base_url :=
      match config.base_url with
      | some u => some u
      | none => global_config.base_url
    timeout := config.timeout
    max_retries := config.max_retries
    enable_caching := config.enable_caching
    enable_metrics := config.enable_metrics
    enable_connection_pooling := config.enable_connection_pooling
    client_cert_path :=
      match config.client_cert_path with
      | some p => some p
      | none => global_config.client_cert_path
    client_key_path :=
      match config.client_key_path with
      | some p => some p
      | none => global_config.client_key_path }

/-- One cache_entry_t; the list order models the next-pointer chain with
the head of the list as cache_head. -/
structure cache_entry_t where
  key : String
  response : String
  expiry : Nat
deriving DecidableEq

/-- The traversal loop of get_cached_response: prevList holds the entries
already passed (in list order, prev being its last element).  On a live
hit the entry is moved to the front when prev is non-null; when prev is
null the entry already is the front, so the result is uniformly
current :: (prevList ++ rest).  On an expired hit the entry is unlinked
and freed.  The returned string models the strdup copy. -/
def cacheLookupGo (now : Nat) (key : String) :
    List cache_entry_t → List cache_entry_t → Option String × List cache_entry_t
  | prevList, [] => (none, prevList)
  | prevList, current :: rest =>
      if current.key = key then
        if now < current.expiry then
          (some current.response, current :: (prevList ++ rest))
        else
          (none, prevList ++ rest)
      else
        cacheLookupGo now key (prevList ++ [current]) rest

/-- get_cached_response: returns the copied value (or none on a miss) and
the cache list after promotion or expiry removal. -/
def get_cached_response (enable_caching : Bool) (now : Nat)
    (cache_head : List cache_entry_t) (key : String) :
    Option String × List cache_entry_t :=
  if enable_caching then cacheLookupGo now key [] cache_head
  else (none, cache_head)

/-- CACHE_TTL from the source: 300 seconds. -/
def CACHE_TTL : Nat := 300

/-- cache_response: when the list already holds at least 100 entries the
last entry is freed, then the new entry is pushed on the front with
expiry now + CACHE_TTL.  No existing entry with the same key is removed. -/
def cache_response (enable_caching : Bool) (now : Nat)
    (cache_head : List cache_entry_t) (key response : String) :
    List cache_entry_t :=
  if enable_caching then
    let trimmed := if 100 ≤ cache_head.length then cache_head.dropLast else cache_head
    ⟨key, response, now + CACHE_TTL⟩ :: trimmed
  else cache_head

/-- The connection pool together with the allocator of fresh handles and
the record of handles passed to curl_easy_cleanup.  connections is the
idle array (length = pool_size); next_handle numbers the handles
curl_easy_init would create; destroyed lists cleaned-up handles in
order. -/
structure PoolState where
  connections : List Nat
  current_index : Nat
  max_connections : Nat
  next_handle : Nat
  destroyed : List Nat
deriving DecidableEq

/-- get_connection_from_pool: with pooling off or an empty pool a fresh
handle is created; otherwise the handle at current_index is returned
WITHOUT being removed from the array, and the index advances modulo
pool_size. -/
def get_connection_from_pool (enable_pooling : Bool) (s : PoolState) :
    Nat × PoolState :=
  if ¬enable_pooling ∨ s.connections.length = 0 then
    (s.next_handle, { s with next_handle := s.next_handle + 1 })
  else
    (s.connections.getD s.current_index 0,
     { s with current_index := (s.current_index + 1) % s.connections.length })

/-- return_connection_to_pool: with pooling off the handle is cleaned up;
otherwise it is appended while pool_size < max_connections, else cleaned
up. -/
def return_connection_to_pool (enable_pooling : Bool) (s : PoolState) (h : Nat) :
    PoolState :=
  if ¬enable_pooling then { s with destroyed := s.destroyed ++ [h] }
  else if s.connections.length < s.max_connections then
    { s with connections := s.connections ++ [h] }
  else
    { s with destroyed := s.destroyed ++ [h] }

/-- One validation_metrics_t record. -/
structure validation_metrics_t where
  request_time : Nat
  retry_count : Nat
  response_size : Nat
  timestamp : Nat
deriving DecidableEq

/-- MAX_METRICS from the source. -/
def MAX_METRICS : Nat := 1000

/-- record_metrics: appends while metrics are enabled and the buffer is
below MAX_METRICS; otherwise drops the record silently. -/
def record_metrics (enable_metrics : Bool) (buffer : List validation_metrics_t)
    (m : validation_metrics_t) : List validation_metrics_t :=
  if enable_metrics ∧ buffer.length < MAX_METRICS then buffer ++ [m] else buffer

/-- One validation_error_t as filled in by set_validation_error. -/
structure validation_error_t where
  code : Int
  message : String
  details : String
  timestamp : Nat
deriving DecidableEq

/-- The whole mutable state of the module: global_config, the pool, the
cache chain, the metrics buffer, and the current wall-clock time. -/
structure SysState where
  config : validation_config_t
  poolState : PoolState
  cache_head : List cache_entry_t
  metrics_buffer : List validation_metrics_t
  now : Nat
deriving DecidableEq

/-- The initial state: default configuration, empty pool of capacity 10,
empty cache and metrics, time 0. -/
def initState : SysState :=
  { config := default_global_config
    poolState := { connections := [], current_index := 0, max_connections := 10
                   next_handle := 0, destroyed := [] }
    cache_head := []
    metrics_buffer := []
    now := 0 }

/-- What one call of curl_validation_enhanced produces: the returned
CURLcode (none models returning the uninitialized res of the retry
helper), the error record written through the error out-parameter, the
state afterwards, the number of transport attempts performed, and
whether the cache was consulted and a pool handle acquired. -/
structure ValidateOutcome where
  retcode : Option CURLcode
  error : Option validation_error_t
  state : SysState
  attempts : Nat
  cache_checked : Bool
  pool_acquired : Bool
deriving DecidableEq

/-- curl_validation_enhanced.  The curl, endpoint and payload parameters
are Option because the C parameters are pointers checked only against
NULL.  The cache key is the snprintf of endpoint ":" payload into a
256-byte buffer, hence truncation to 255 characters.  On a cache hit the
strdup copy is freed and CURLE_OK returned with no body.  On a miss a
connection is taken from the pool, the retry engine runs, a metric with
retry_count hard-coded to 0 is recorded, a 2xx outcome stores the literal
string "success" in the cache, a non-2xx or transport failure fills the
error record, and the connection is returned to the pool. -/
def curl_validation_enhanced (st : SysState) (transport : Nat → Exchange)
    (curl : Option Nat) (endpoint payload : Option String) : ValidateOutcome :=
  match curl, endpoint, payload with
  | some _, some ep, some pl =>
      let cache_key := (ep ++ ":" ++ pl).take 255
      let looked := get_cached_response st.config.enable_caching st.now st.cache_head cache_key
      match looked.1 with
      | some _ =>
          ⟨some CURLcode.ok, none, { st with cache_head := looked.2 }, 0, true, false⟩
      | none =>
          let acq := get_connection_from_pool st.config.enable_connection_pooling st.poolState
          let rr := validation_retry_with_backoff transport st.config.max_retries
          let metric : validation_metrics_t :=
            { request_time := 0, retry_count := 0, response_size := 0, timestamp := st.now }
          let metrics2 := record_metrics st.config.enable_metrics st.metrics_buffer metric
          let status := rr.lastStatus.getD 0
          let cache2 :=
            if rr.res = some CURLcode.ok ∧ 200 ≤ status ∧ status < 300 then
              cache_response st.config.enable_caching st.now looked.2 cache_key "success"
            else looked.2
          let err : Option validation_error_t :=
            match rr.res with
            | some CURLcode.ok =>
                if 200 ≤ status ∧ status < 300 then none
                else some ⟨(status : Int), "HTTP " ++ toString status,
                           "API returned non-200 status", st.now⟩
            | some r => some ⟨curlCodeNum r, curl_easy_strerror r, "CURL operation failed", st.now⟩
            | none => none
          let pool2 := return_connection_to_pool st.config.enable_connection_pooling acq.2 acq.1
          ⟨rr.res, err,
           { st with cache_head := cache2, poolState := pool2, metrics_buffer := metrics2 },
           rr.attempts, true, true⟩
  | _, _, _ =>
      ⟨some CURLcode.bad_function_argument,
       some ⟨400, "Invalid parameters", "curl, endpoint, or payload is NULL", st.now⟩,
       st, 0, false, false⟩

/-- A transport that answers every attempt with HTTP 503. -/
def t503 : Nat → Exchange := fun _ => ⟨CURLcode.ok, 503, "service unavailable"⟩

/-- A transport that answers every attempt with HTTP 200 and a body. -/
def t200 : Nat → Exchange := fun _ => ⟨CURLcode.ok, 200, "BODY"⟩

/-- C10: with max_retries = 0 the loop guard retry_count < max_retries is
false at once, so no exchange is attempted, nothing is slept, and the
uninitialized local res (and never-queried response code) are returned. -/
theorem c10_zero_max_retries (transport : Nat → Exchange) :
    validation_retry_with_backoff transport 0 =
      { res := none, lastStatus := none, attempts := 0, sleeps := [] } := rfl

/-- C1 counterexample: with max_retries = 3 and a transport that always
returns 503, curl_validation_enhanced performs 3 exchange attempts, not
the 4 the claim states. -/
theorem c1_attempts_not_four :
    (curl_validation_enhanced initState t503 (some 0)
        (some "validations/accounts") (some "acct")).attempts ≠ 4 := by
  decide

/-- C1 amended: with max_retries = 3 and an always-503 transport the
orchestrator performs exactly 3 exchange attempts (the initial attempt
counts against max_retries), sleeps 1 s then 2 s between them, surfaces
an error record carrying the 5xx status 503, and returns CURLE_OK as the
function result. -/
theorem c1_three_attempts_server_error (ep pl : String) :
    (curl_validation_enhanced { initState with cache_head := [] } t503 (some 0)
        (some ep) (some pl)).attempts = 3 ∧
    (curl_validation_enhanced { initState with cache_head := [] } t503 (some 0)
        (some ep) (some pl)).error =
      some ⟨503, "HTTP 503", "API returned non-200 status", 0⟩ ∧
    (curl_validation_enhanced { initState with cache_head := [] } t503 (some 0)
        (some ep) (some pl)).retcode = some CURLcode.ok ∧
    (validation_retry_with_backoff t503 3).sleeps = [1, 2] :=
  ⟨rfl, rfl, rfl, rfl⟩

/-- One acquire immediately followed by one release of the acquired
handle, as in the pool-retention scenario. -/
def acquire_release (enable_pooling : Bool) (s : PoolState) : PoolState :=
  let a := get_connection_from_pool enable_pooling s
  return_connection_to_pool enable_pooling a.2 a.1

/-- Iterating acquire-then-release a given number of times. -/
def acquire_release_iter (enable_pooling : Bool) : Nat → PoolState → PoolState
  | 0, s => s
  | k + 1, s => acquire_release_iter enable_pooling k (acquire_release enable_pooling s)

/-- getD on a replicate of zeros is zero at every index. -/
lemma replicate_getD_zero : ∀ (k j : Nat), (List.replicate k (0 : Nat)).getD j 0 = 0
  | 0, 0 => rfl
  | 0, _ + 1 => rfl
  | _ + 1, 0 => rfl
  | k + 1, j + 1 => replicate_getD_zero k j

/-- Below capacity, an acquire-release on a pool of k copies of handle 0
appends one more copy: the acquire hands out a pooled handle without
removing it and the release appends it again. -/
lemma acquire_release_replicate (n k j nh : Nat) (ds : List Nat)
    (hk : k ≠ 0) (hkn : k < n) :
    acquire_release true ⟨List.replicate k 0, j, n, nh, ds⟩ =
      ⟨List.replicate (k + 1) 0, (j + 1) % k, n, nh, ds⟩ := by
  simp [acquire_release, get_connection_from_pool, return_connection_to_pool,
        hk, hkn, replicate_getD_zero, List.replicate_succ']

/-- At capacity, an acquire-release leaves the pool unchanged and cleans
up the handle that was just handed out (which is still in the pool). -/
lemma acquire_release_full (k j nh : Nat) (ds : List Nat) (hk : k ≠ 0) :
    acquire_release true ⟨List.replicate k 0, j, k, nh, ds⟩ =
      ⟨List.replicate k 0, (j + 1) % k, k, nh, ds ++ [0]⟩ := by
  simp [acquire_release, get_connection_from_pool, return_connection_to_pool,
        hk, replicate_getD_zero]

/-- Running m more below-capacity rounds and then the final at-capacity
round from a pool of k copies fills the pool to capacity n = k + m and
destroys exactly one handle. -/
lemma acquire_release_iter_fill (n : Nat) : ∀ (m k j nh : Nat) (ds : List Nat),
    k ≠ 0 → k + m = n →
    ∃ j2, acquire_release_iter true (m + 1) ⟨List.replicate k 0, j, n, nh, ds⟩ =
      ⟨List.replicate n 0, j2, n, nh, ds ++ [0]⟩ := by
  intro m
  induction m with
  | zero =>
      intro k j nh ds hk hkn
      have hk2 : k = n := by omega
      subst hk2
      exact ⟨(j + 1) % k, by
        show acquire_release_iter true 0 (acquire_release true _) = _
        rw [acquire_release_full k j nh ds hk]
        rfl⟩
  | succ m ih =>
      intro k j nh ds hk hkn
      obtain ⟨j2, hj2⟩ := ih (k + 1) ((j + 1) % k) nh ds (by omega) (by omega)
      refine ⟨j2, ?_⟩
      show acquire_release_iter true (m + 1) (acquire_release true _) = _
      rw [acquire_release_replicate n k j nh ds hk (by omega)]
      exact hj2

/-- C2: starting from the empty pool with idle capacity n, n + 1 rounds
of acquire immediately followed by release leave exactly n idle entries
in the pool and exactly one handle destroyed. -/
theorem c2_pool_retention (n : Nat) :
    (acquire_release_iter true (n + 1)
        ⟨[], 0, n, 0, []⟩).connections.length = n ∧
    (acquire_release_iter true (n + 1)
        ⟨[], 0, n, 0, []⟩).destroyed.length = 1 := by
  cases n with
  | zero => decide
  | succ n =>
      have h1 : acquire_release true ⟨[], 0, n + 1, 0, []⟩ =
          ⟨[0], 0, n + 1, 1, []⟩ := by
        simp [acquire_release, get_connection_from_pool, return_connection_to_pool]
      obtain ⟨j2, hj2⟩ :=
        acquire_release_iter_fill (n + 1) n 1 0 1 [] (by omega) (by omega)
      have h2 : acquire_release_iter true (n + 1 + 1) ⟨[], 0, n + 1, 0, []⟩ =
          acquire_release_iter true (n + 1) (acquire_release true ⟨[], 0, n + 1, 0, []⟩) := rfl
      rw [h2, h1]
      have h3 : ([0] : List Nat) = List.replicate 1 0 := rfl
      rw [h3] at *
      rw [hj2]
      simp

/-- C3: with the idle set containing exactly the handle 7, two successive
acquires with no release in between both return handle 7, and the first
acquire leaves 7 in the idle set — the pool double-issues handles. -/
theorem c3_handle_double_issued :
    (get_connection_from_pool true ⟨[7], 0, 10, 1, []⟩).1 = 7 ∧
    (get_connection_from_pool true
        (get_connection_from_pool true ⟨[7], 0, 10, 1, []⟩).2).1 = 7 ∧
    (get_connection_from_pool true ⟨[7], 0, 10, 1, []⟩).2.connections = [7] := by
  decide

/-- A configuration whose string fields are all present. -/
def cfgA : validation_config_t :=
  ⟨some "https://a.example", 30, 3, true, true, true, none, none⟩

/-- A configuration update that leaves base_url NULL. -/
def cfgB : validation_config_t :=
  ⟨none, 10, 1, false, false, false, none, none⟩

/-- A configuration update with every string field supplied. -/
def cfgC : validation_config_t :=
  ⟨some "https://b.example", 10, 1, false, false, false, some "/cert.pem", some "/key.pem"⟩

/-- C6 counterexample: setting a configuration whose base_url is NULL
does not replace the configuration wholesale — the previous base_url is
retained, so the active configuration differs from the supplied one. -/
theorem c6_not_wholesale : validation_set_config cfgA cfgB ≠ cfgB := by decide

/-- C6 amended: scalar fields and toggles are always copied from the
supplied configuration, and the three string fields are copied exactly
when supplied non-NULL; a NULL string field retains the previous value.
When all three string fields are supplied, the replacement is wholesale. -/
theorem c6_field_replacement (g c : validation_config_t) :
    ((c.base_url.isSome ∧ c.client_cert_path.isSome ∧ c.client_key_path.isSome) →
      validation_set_config g c = c) ∧
    (c.base_url = none → (validation_set_config g c).base_url = g.base_url) ∧
    (c.client_cert_path = none →
      (validation_set_config g c).client_cert_path = g.client_cert_path) ∧
    (c.client_key_path = none →
      (validation_set_config g c).client_key_path = g.client_key_path) ∧
    (validation_set_config g c).timeout = c.timeout ∧
    (validation_set_config g c).max_retries = c.max_retries ∧
    (validation_set_config g c).enable_caching = c.enable_caching ∧
    (validation_set_config g c).enable_metrics = c.enable_metrics ∧
    (validation_set_config g c).enable_connection_pooling = c.enable_connection_pooling := by
  obtain ⟨bu, ti, mr, ec, em, ep, cc, ck⟩ := c
  cases bu <;> cases cc <;> cases ck <;> simp [validation_set_config]

/-- Witness for c6_field_replacement at concrete configurations. -/
theorem c6_field_replacement_w :
    validation_set_config cfgA cfgC = cfgC ∧
    (validation_set_config cfgA cfgB).base_url = cfgA.base_url :=
  ⟨(c6_field_replacement cfgA cfgC).1 ⟨rfl, rfl, rfl⟩,
   (c6_field_replacement cfgA cfgB).2.1 rfl⟩

/-- Traversing entries whose keys all differ from the searched key only
moves them from the remaining list to the passed list. -/
lemma cacheLookupGo_skip (now : Nat) (key : String) :
    ∀ (l1 acc rest : List cache_entry_t),
      (∀ x ∈ l1, x.key ≠ key) →
      cacheLookupGo now key acc (l1 ++ rest) = cacheLookupGo now key (acc ++ l1) rest := by
  intro l1
  induction l1 with
  | nil => intro acc rest _; simp
  | cons x xs ih =>
      intro acc rest h
      have hx : ¬ (x.key = key) := h x (by simp)
      have hxs : ∀ y ∈ xs, y.key ≠ key := fun y hy => h y (by simp [hy])
      simp only [List.cons_append, cacheLookupGo, hx, if_false, ite_false, List.append_eq]
      rw [ih (acc ++ [x]) rest hxs]
      simp

/-- C7: the lookup contract of get_cached_response with caching enabled.
Part 1: a lookup immediately after a store of the same key returns the
stored value.  Part 2: when the first entry carrying the key is live, the
lookup returns its value and moves it to the most-recently-used (front)
position.  Part 3: when the first entry carrying the key is expired
(expiry not in the future), the lookup unlinks it and misses.  Part 4:
when no entry carries the key, the lookup misses and leaves the cache
unchanged. -/
theorem c7_lookup_contract :
    (∀ (now : Nat) (cache : List cache_entry_t) (key value : String),
        (get_cached_response true now
            (cache_response true now cache key value) key).1 = some value) ∧
    (∀ (now : Nat) (key : String) (l1 l2 : List cache_entry_t) (e : cache_entry_t),
        (∀ x ∈ l1, x.key ≠ key) → e.key = key → now < e.expiry →
        get_cached_response true now (l1 ++ e :: l2) key =
          (some e.response, e :: (l1 ++ l2))) ∧
    (∀ (now : Nat) (key : String) (l1 l2 : List cache_entry_t) (e : cache_entry_t),
        (∀ x ∈ l1, x.key ≠ key) → e.key = key → e.expiry ≤ now →
        get_cached_response true now (l1 ++ e :: l2) key = (none, l1 ++ l2)) ∧
    (∀ (now : Nat) (key : String) (cache : List cache_entry_t),
        (∀ x ∈ cache, x.key ≠ key) →
        get_cached_response true now cache key = (none, cache)) := by
  refine ⟨?_, ?_, ?_, ?_⟩
  · intro now cache key value
    simp [get_cached_response, cache_response, cacheLookupGo, CACHE_TTL]
  · intro now key l1 l2 e h1 he hexp
    unfold get_cached_response
    rw [if_pos rfl, cacheLookupGo_skip now key l1 [] (e :: l2) h1]
    simp [cacheLookupGo, he, hexp]
  · intro now key l1 l2 e h1 he hexp
    unfold get_cached_response
    rw [if_pos rfl, cacheLookupGo_skip now key l1 [] (e :: l2) h1]
    simp [cacheLookupGo, he, Nat.not_lt.mpr hexp]
  · intro now key cache h
    unfold get_cached_response
    rw [if_pos rfl, show cache = cache ++ [] by simp,
        cacheLookupGo_skip now key cache [] [] h]
    simp [cacheLookupGo]

/-- Witness for c7_lookup_contract at concrete caches and times. -/
theorem c7_lookup_contract_w :
    (get_cached_response true 0 (cache_response true 0 [] "k" "v") "k").1 = some "v" ∧
    get_cached_response true 3 [⟨"a", "x", 9⟩, ⟨"k", "v", 10⟩] "k" =
      (some "v", [⟨"k", "v", 10⟩, ⟨"a", "x", 9⟩]) ∧
    get_cached_response true 12 [⟨"a", "x", 9⟩, ⟨"k", "v", 10⟩] "k" =
      (none, [⟨"a", "x", 9⟩]) ∧
    get_cached_response true 5 [⟨"a", "x", 9⟩] "k" = (none, [⟨"a", "x", 9⟩]) :=
  ⟨c7_lookup_contract.1 0 [] "k" "v",
   c7_lookup_contract.2.1 3 "k" [⟨"a", "x", 9⟩] [] ⟨"k", "v", 10⟩
     (by decide) rfl (by decide),
   c7_lookup_contract.2.2.1 12 "k" [⟨"a", "x", 9⟩] [] ⟨"k", "v", 10⟩
     (by decide) rfl (by decide),
   c7_lookup_contract.2.2.2 5 "k" [⟨"a", "x", 9⟩] (by decide)⟩

/-- C8 counterexample: storing the same key twice leaves two entries with
that key in the table — cache_response inserts without overwriting, so
keys are not pairwise distinct. -/
theorem c8_duplicate_keys :
    ((cache_response true 0 (cache_response true 0 [] "k" "v1") "k" "v2").map
        (fun e => e.key) = ["k", "k"]) ∧
    ¬ ((cache_response true 0 (cache_response true 0 [] "k" "v1") "k" "v2").map
        (fun e => e.key)).Nodup := by
  decide

/-- C8 amended: cache_response always prepends a fresh entry and never
removes an existing entry with the same key, so the table can hold
duplicate keys; because lookup scans from the head, lookups still
observe the most recent store for a key (last write wins). -/
theorem c8_store_prepends_lww (now : Nat) (cache : List cache_entry_t) (k v1 v2 : String) :
    (get_cached_response true now
        (cache_response true now (cache_response true now cache k v1) k v2) k).1 =
      some v2 ∧
    (cache_response true now (cache_response true now [] k v1) k v2).map
        (fun e => e.key) = [k, k] := by
  constructor
  · simp [get_cached_response, cache_response, cacheLookupGo, CACHE_TTL]
  · simp [cache_response]

/-- C4 counterexample: with the transport delivering a 200 response whose
body is "BODY", the entry stored in the cache holds the literal string
"success", not the transport body — the response body is never captured
or cached. -/
theorem c4_body_not_cached :
    ((curl_validation_enhanced initState t200 (some 0)
        (some "validations/accounts") (some "acct")).state.cache_head.map
        (fun e => e.response) = ["success"]) ∧
    (t200 0).body = "BODY" ∧ "success" ≠ "BODY" := by
  decide

/-- The first validate call of the C4 scenario, against the empty initial
state. -/
def c4_first : ValidateOutcome :=
  curl_validation_enhanced initState t200 (some 0)
    (some "validations/accounts") (some "acct")

/-- The identical second validate call, 10 seconds later. -/
def c4_second : ValidateOutcome :=
  curl_validation_enhanced { c4_first.state with now := 10 } t200 (some 0)
    (some "validations/accounts") (some "acct")

set_option maxRecDepth 8000 in
/-- C4 amended: on a 2xx success the fixed string "success" is stored in
the cache under the endpoint:payload fingerprint with expiry now + 300;
a subsequent identical call within 300 seconds hits the cache, performs
no transport attempt and returns CURLE_OK with no error, but delivers no
body (the cached copy is freed, not returned). -/
theorem c4_cached_hit_no_transport :
    c4_first.state.cache_head = [⟨"validations/accounts:acct", "success", 300⟩] ∧
    c4_first.attempts = 1 ∧
    c4_second.attempts = 0 ∧
    c4_second.retcode = some CURLcode.ok ∧
    c4_second.error = none ∧
    c4_second.pool_acquired = false := by
  decide

/-- C5 counterexample: an empty-string (non-NULL) endpoint is not
rejected: the call does not return CURLE_BAD_FUNCTION_ARGUMENT, consults
the cache, acquires a pool handle and performs a transport attempt. -/
theorem c5_empty_string_not_rejected :
    ((curl_validation_enhanced initState t200 (some 0)
        (some "") (some "x")).retcode ≠ some CURLcode.bad_function_argument) ∧
    (curl_validation_enhanced initState t200 (some 0)
        (some "") (some "x")).attempts = 1 ∧
    (curl_validation_enhanced initState t200 (some 0)
        (some "") (some "x")).cache_checked = true ∧
    (curl_validation_enhanced initState t200 (some 0)
        (some "") (some "x")).pool_acquired = true := by
  decide

/-- C5 amended: only a NULL curl handle, endpoint or payload is rejected:
the call then fails immediately with CURLE_BAD_FUNCTION_ARGUMENT and an
error record of code 400, performs no transport attempt, consults no
cache, acquires no pool handle and leaves the state unchanged. -/
theorem c5_null_guard (st : SysState) (transport : Nat → Exchange)
    (curl : Option Nat) (endpoint payload : Option String)
    (h : curl = none ∨ endpoint = none ∨ payload = none) :
    curl_validation_enhanced st transport curl endpoint payload =
      ⟨some CURLcode.bad_function_argument,
       some ⟨400, "Invalid parameters", "curl, endpoint, or payload is NULL", st.now⟩,
       st, 0, false, false⟩ := by
  cases curl <;> cases endpoint <;> cases payload <;> simp_all [curl_validation_enhanced]

/-- Witness for c5_null_guard with a NULL endpoint. -/
theorem c5_null_guard_w :
    curl_validation_enhanced initState t200 (some 0) none (some "x") =
      ⟨some CURLcode.bad_function_argument,
       some ⟨400, "Invalid parameters", "curl, endpoint, or payload is NULL", 0⟩,
       initState, 0, false, false⟩ :=
  c5_null_guard initState t200 (some 0) none (some "x") (Or.inr (Or.inl rfl))

/-- C9: whatever the inputs, state and transport behaviour, a call of the
orchestrator either records no metric or appends exactly one metric whose
retry_count field is 0 — the retry count of the engine is never
propagated into the recorded metric. -/
theorem c9_metric_retry_count_zero (st : SysState) (transport : Nat → Exchange)
    (curl : Option Nat) (endpoint payload : Option String) :
    (curl_validation_enhanced st transport curl endpoint payload).state.metrics_buffer =
        st.metrics_buffer ∨
    ∃ m, (curl_validation_enhanced st transport curl endpoint payload).state.metrics_buffer =
        st.metrics_buffer ++ [m] ∧ m.retry_count = 0 := by
  cases curl with
  | none => left; rfl
  | some c =>
      cases endpoint with
      | none => left; rfl
      | some ep =>
          cases payload with
          | none => left; rfl
          | some pl =>
              unfold curl_validation_enhanced
              cases hc : (get_cached_response st.config.enable_caching st.now
                  st.cache_head ((ep ++ ":" ++ pl).take 255)).1 with
              | some v => simp only [hc]; left; trivial
              | none =>
                  simp only [hc]
                  unfold record_metrics
                  split
                  · right
                    exact ⟨_, rfl, rfl⟩
                  · left; rfl
